import Mathlib

/-!
# Verification of the MusicAppFlaskBackend core against its specification

Shallow embedding of `src/app.py`: the SQLite-backed `DatabaseService` and
`AuthService`, and the Flask route handlers (`register`, `login`, `upload_song`,
`delete_song`, `serve_song`, `get_all_songs`, `play_song`).

Modelling conventions:
* The SQLite database is a record of the two tables (`users`, `songs`) as lists
  of rows, together with the AUTOINCREMENT counters (SQLite assigns row ids
  starting from 1; `lastrowid` is the id just assigned).
* `SELECT ... WHERE col = ?` with a single-row fetch is `List.find?`;
  `DELETE ... WHERE id = ?` is `List.filter`; inserting `None` (Python) into a
  `NOT NULL` column raises `sqlite3.IntegrityError`, modelled as `Except.error`.
* The song directory is a set of blob names (`FS.files`); `FS.removeFails`
  marks names for which `os.remove` raises an `OSError` (a true I/O failure,
  as opposed to mere absence, which the code tests with `os.path.exists`).
* The Flask session is an `Option Nat` (the value stored under the
  `user_id` key, if any); handlers that mutate state return the new state,
  and an uncaught Python exception is the `Response.fault` outcome.
* Optional request fields (`request.form.get`, `data.get`) are `Option String`,
  `none` standing for the Python `None` of an absent field.
-/

/-- A row of the `users` table: `id INTEGER PRIMARY KEY AUTOINCREMENT`,
`username TEXT NOT NULL UNIQUE`, `password TEXT NOT NULL` (the salted hash). -/
structure UserRow where
  id : Nat
  username : String
  password : String
deriving Repr, DecidableEq

/-- A row of the `songs` table: `id INTEGER PRIMARY KEY AUTOINCREMENT`,
`title`, `author`, `duration`, `music_file_url`, all `NOT NULL`. -/
structure SongRow where
  id : Nat
  title : String
  author : String
  duration : Nat
  music_file_url : String
deriving Repr, DecidableEq

/-- The SQLite database at `DB_PATH`: both tables plus the AUTOINCREMENT
counters (the next id each table will assign; SQLite starts at 1). -/
structure DB where
  users : List UserRow
  nextUserId : Nat
  songs : List SongRow
  nextSongId : Nat
deriving Repr, DecidableEq

/-- The empty database right after `init_db`. -/
def DB.empty : DB := ⟨[], 1, [], 1⟩

/-- The blob namespace `SONG_DIRECTORY`: which file names are present, and
which names `os.remove` would fail on with a true I/O error (`OSError`). -/
structure FS where
  files : List String
  removeFails : List String
deriving Repr, DecidableEq

/-- `file.save(os.path.join(SONG_DIRECTORY, filename))`: the blob now exists
under `filename`, overwriting any previous blob of that name. -/
def FS.save (fs : FS) (filename : String) : FS :=
  { fs with files := if filename ∈ fs.files then fs.files else fs.files ++ [filename] }

/-- `os.remove(os.path.join(SONG_DIRECTORY, filename))` when it succeeds. -/
def FS.removeFile (fs : FS) (filename : String) : FS :=
  { fs with files := fs.files.erase filename }

/-- Modelled from the spec: werkzeug's `generate_password_hash` (not part of
this repository) derives a salted one-way hash of the password; the model is a
deterministic injective tagging, so that the only password whose hash check
succeeds against `generate_password_hash p` is `p` itself. -/
def generate_password_hash (password : String) : String :=
  "pbkdf2-model$" ++ password

/-- Modelled from the spec: werkzeug's `check_password_hash` succeeds exactly
when the supplied password is the one the stored hash was derived from. -/
def check_password_hash (pwhash : String) (password : String) : Bool :=
  pwhash == generate_password_hash password

/-- `DatabaseService.add_song`: `INSERT INTO songs (title, author, duration,
music_file_url) VALUES (?, ?, ?, ?)` followed by `lastrowid`. Binding the
Python `None` for a `NOT NULL` column raises `sqlite3.IntegrityError`,
modelled as `Except.error ()`. -/
def add_song (db : DB) (title author : Option String) (duration : Nat)
    (music_file_url : String) : Except Unit (Nat × DB) :=
  match title, author with
  | some t, some a =>
      let song_id := db.nextSongId
      .ok (song_id,
        { db with
          songs := db.songs ++ [⟨song_id, t, a, duration, music_file_url⟩],
          nextSongId := song_id + 1 })
  | _, _ => .error ()

/-- `DatabaseService.get_song`: `SELECT title, author, duration, music_file_url
FROM songs WHERE id = ?` with `fetchone`. -/
def get_song (db : DB) (song_id : Nat) : Option (String × String × Nat × String) :=
  (db.songs.find? (fun s => s.id = song_id)).map
    (fun s => (s.title, s.author, s.duration, s.music_file_url))

/-- `DatabaseService.get_all_songs`: `SELECT id, title, author, duration,
music_file_url FROM songs` with `fetchall`. -/
def db_get_all_songs (db : DB) : List SongRow :=
  db.songs

/-- `AuthService.register_user`: hash the password, `INSERT INTO users
(username, password) VALUES (?, ?)`; a violation of the UNIQUE constraint on
`username` raises `sqlite3.IntegrityError`, caught and turned into `False`. -/
def register_user (db : DB) (username password : String) : Bool × DB :=
  let hashed_password := generate_password_hash password
  if db.users.any (fun r => r.username = username) then
    (false, db)
  else
    (true,
      { db with
        users := db.users ++ [⟨db.nextUserId, username, hashed_password⟩],
        nextUserId := db.nextUserId + 1 })

/-- `AuthService.verify_user`: `SELECT id, password FROM users WHERE
username = ?`, then `if user and check_password_hash(user[1], password)`.
Both arguments arrive from `data.get(...)` and may be the Python `None`:
a `None` username matches no row (SQL `NULL` equals nothing), and a `None`
password reaching werkzeug's `check_password_hash` raises (no `.encode` on
`None`), modelled as `Except.error ()`. -/
def verify_user (db : DB) (username password : Option String) :
    Except Unit (Option Nat) :=
  match username.bind (fun u => db.users.find? (fun r => r.username = u)) with
  | some row =>
      match password with
      | none => .error ()
      | some p => .ok (if check_password_hash row.password p then some row.id else none)
  | none => .ok none

/-- `AuthService.get_username_by_id`: `SELECT username FROM users WHERE
id = ?`, returning the username or the Python `None`. -/
def get_username_by_id (db : DB) (user_id : Nat) : Option String :=
  (db.users.find? (fun r => r.id = user_id)).map (fun r => r.username)

/-- Modelled from the spec: `ALLOWED_EXTENSIONS` comes from `config.py`, which
is not part of the sources; the spec calls it "an allow-list of audio
extensions" and its scenario uploads `song.mp3`. -/
def ALLOWED_EXTENSIONS : List String :=
  ["mp3", "wav", "ogg", "flac"]

/-- Modelled from Python's Unicode character database (CPython 3.11): the
first code point of each run of ten decimal digits (category `Nd`); the k-th
code point of a run has decimal value k. These are exactly the characters
`int()` accepts as digits. -/
def decimalRunStarts : List Nat :=
  [0x30, 0x660, 0x6f0, 0x7c0, 0x966, 0x9e6, 0xa66, 0xae6, 0xb66, 0xbe6,
   0xc66, 0xce6, 0xd66, 0xde6, 0xe50, 0xed0, 0xf20, 0x1040, 0x1090, 0x17e0,
   0x1810, 0x1946, 0x19d0, 0x1a80, 0x1a90, 0x1b50, 0x1bb0, 0x1c40, 0x1c50,
   0xa620, 0xa8d0, 0xa900, 0xa9d0, 0xa9f0, 0xaa50, 0xabf0, 0xff10, 0x104a0,
   0x10d30, 0x11066, 0x110f0, 0x11136, 0x111d0, 0x112f0, 0x11450, 0x114d0,
   0x11650, 0x116c0, 0x11730, 0x118e0, 0x11950, 0x11c50, 0x11d50, 0x11da0,
   0x16a60, 0x16ac0, 0x16b50, 0x1d7ce, 0x1d7d8, 0x1d7e2, 0x1d7ec, 0x1d7f6,
   0x1e140, 0x1e2f0, 0x1e950, 0x1fbf0]

/-- Modelled from Python's Unicode character database (CPython 3.11): the
code-point ranges of characters that satisfy `str.isdigit()` without being
decimal digits (`Numeric_Type=Digit`: superscripts, subscripts, circled
digits, ...). `int()` raises `ValueError` on every one of them. -/
def digitOnlyRanges : List (Nat × Nat) :=
  [(0xb2, 0xb3), (0xb9, 0xb9), (0x1369, 0x1371), (0x19da, 0x19da),
   (0x2070, 0x2070), (0x2074, 0x2079), (0x2080, 0x2089), (0x2460, 0x2468),
   (0x2474, 0x247c), (0x2488, 0x2490), (0x24ea, 0x24ea), (0x24f5, 0x24fd),
   (0x24ff, 0x24ff), (0x2776, 0x277e), (0x2780, 0x2788), (0x278a, 0x2792),
   (0x10a40, 0x10a43), (0x10e60, 0x10e68), (0x11052, 0x1105a),
   (0x1f100, 0x1f10a)]

/-- The decimal value of a character, when it is a Unicode decimal digit
(category `Nd`). -/
def pyCharDecimal? (c : Char) : Option Nat :=
  (decimalRunStarts.find? (fun s => s ≤ c.toNat && c.toNat ≤ s + 9)).map
    (fun s => c.toNat - s)

/-- Python's per-character `isdigit` test: a decimal digit or one of the
digit-only characters. -/
def pyCharIsDigit (c : Char) : Bool :=
  (pyCharDecimal? c).isSome ||
    digitOnlyRanges.any (fun r => r.1 ≤ c.toNat && c.toNat ≤ r.2)

/-- Python `str.isdigit()`: nonempty and every character a Unicode digit. -/
def pyIsdigit (s : String) : Bool :=
  !s.data.isEmpty && s.data.all pyCharIsDigit

/-- Python `int(s)` for a string that passed `str.isdigit()`: succeeds iff
every character is a decimal digit, combining the per-character decimal
values in base 10; a digit-only character (such as "²") makes `int` raise
`ValueError`, modelled as `none`. -/
def pyInt? (s : String) : Option Nat :=
  s.data.foldl
    (fun acc c => acc.bind (fun n => (pyCharDecimal? c).map (fun v => n * 10 + v)))
    (some 0)

/-- Split a character list on a separator (Python `str.split(sep)` over the
characters). -/
def splitOnChar (sep : Char) (l : List Char) : List (List Char) :=
  match l with
  | [] => [[]]
  | c :: cs =>
      let rest := splitOnChar sep cs
      if c = sep then [] :: rest
      else
        match rest with
        | [] => [[c]]
        | r :: rs => (c :: r) :: rs

/-- Python `filename.rsplit('.', 1)[1]` for a filename containing a dot:
everything after the last dot. -/
def extensionOf (filename : String) : List Char :=
  (splitOnChar '.' filename.data).getLastD []

/-- `allowed_file`: `'.' in filename and filename.rsplit('.', 1)[1].lower()
in ALLOWED_EXTENSIONS`. -/
def allowed_file (filename : String) : Bool :=
  '.' ∈ filename.data &&
    (extensionOf filename).map Char.toLower ∈ ALLOWED_EXTENSIONS.map String.data

/-- Modelled from the spec: werkzeug's `secure_filename` (not part of this
repository) sanitizes the filename, removing path-traversal and unsafe
characters; modelled as keeping only alphanumerics, dot, dash and underscore.
No claim depends on its internals, only on its output naming the blob. -/
def secure_filename (filename : String) : String :=
  String.mk (filename.data.filter
    (fun c => c.isAlphanum || c = '.' || c = '_' || c = '-'))

/-- The observable outcome of one request: a JSON body with a status code, one
of the structured 200 payloads, a Flask `abort`, a `send_from_directory`
byte stream, or an uncaught Python exception escaping the handler. -/
inductive Response where
  | json (status : Nat) (msg : String)
  | uploadOk (id : Nat) (title author : Option String) (duration : Nat)
      (music_file_url : String)
  | songData (id : Nat) (title author : String) (duration : Nat)
      (music_file_url : String)
  | songList (rows : List SongRow)
  | stream (filename : String)
  | httpAbort (status : Nat)
  | fault
deriving Repr, DecidableEq

/-- The multipart form of an `/upload` request: the `file` part with its
client-supplied filename if present, and the three optional form fields. -/
structure UploadRequest where
  file? : Option String
  title : Option String
  author : Option String
  duration : Option String
deriving Repr, DecidableEq

/-- `POST /register`: missing or empty fields are falsy in
`if not username or not password`; then `register_user` decides 201 vs 409. -/
def register (db : DB) (username password : Option String) : Response × DB :=
  if username.getD "" = "" || password.getD "" = "" then
    (.json 400 "Username and password are required", db)
  else
    match register_user db (username.getD "") (password.getD "") with
    | (true, db') => (.json 201 "User registered successfully", db')
    | (false, db') => (.json 409 "Username already exists", db')

/-- `POST /login`: `verify_user` decides; `if user_id:` treats both the Python
`None` and `0` as falsy; on success the session stores the user id; an
exception out of `verify_user` escapes the handler. -/
def login (db : DB) (sess : Option Nat) (username password : Option String) :
    Response × Option Nat :=
  match verify_user db username password with
  | .error _ => (.fault, sess)
  | .ok (some user_id) =>
      if user_id ≠ 0 then (.json 200 "Login successful", some user_id)
      else (.json 401 "Invalid username or password", sess)
  | .ok none => (.json 401 "Invalid username or password", sess)

/-- `POST /upload` (`@login_required`, then inline admin check, then the
validations in source order, then `duration = int(duration)`, then
`file.save` followed by `add_song`). A `ValueError` out of `int()` (a
duration of digit-only characters such as "²") escapes the handler before
any mutation; an `IntegrityError` out of `add_song` (missing title or
author) escapes it after the blob was already saved. -/
def upload_song (db : DB) (fs : FS) (sess : Option Nat) (req : UploadRequest) :
    Response × DB × FS :=
  match sess with
  | none => (.json 401 "Authentication required", db, fs)
  | some user_id =>
    if get_username_by_id db user_id ≠ some "admin" then
      (.json 403 "You do not have permission to upload songs", db, fs)
    else
      match req.file? with
      | none => (.json 400 "No file part", db, fs)
      | some fname =>
        match req.duration with
        | none => (.json 400 "Invalid duration provided", db, fs)
        | some d =>
          if d = "" || !pyIsdigit d then
            (.json 400 "Invalid duration provided", db, fs)
          else
            match pyInt? d with
            | none => (.fault, db, fs)
            | some dur =>
              if fname ≠ "" && allowed_file fname then
                let filename := secure_filename fname
                let fs' := fs.save filename
                match add_song db req.title req.author dur filename with
                | .ok (song_id, db') =>
                    (.uploadOk song_id req.title req.author dur filename, db', fs')
                | .error _ => (.fault, db, fs')
              else
                (.json 400 "Invalid file format", db, fs)

/-- `DELETE /songs/<id>` (`@login_required`, admin check, `SELECT
music_file_url`, conditional `os.remove` guarded by `os.path.exists`, then
`DELETE FROM songs`). An `OSError` out of `os.remove` escapes the handler
before the row is deleted. -/
def delete_song (db : DB) (fs : FS) (sess : Option Nat) (song_id : Nat) :
    Response × DB × FS :=
  match sess with
  | none => (.json 401 "Authentication required", db, fs)
  | some user_id =>
    if get_username_by_id db user_id ≠ some "admin" then
      (.json 403 "You do not have permission to delete songs", db, fs)
    else
      match db.songs.find? (fun s => s.id = song_id) with
      | some row =>
          if row.music_file_url ∈ fs.files then
            if row.music_file_url ∈ fs.removeFails then
              (.fault, db, fs)
            else
              (.json 200 "Song deleted successfully",
               { db with songs := db.songs.filter (fun s => s.id ≠ song_id) },
               fs.removeFile row.music_file_url)
          else
            (.json 200 "Song deleted successfully",
             { db with songs := db.songs.filter (fun s => s.id ≠ song_id) },
             fs)
      | none => (.json 404 "Song not found", db, fs)

/-- `GET /songs/<id>` (`@login_required`): metadata of one song, or
`abort(404)`. -/
def serve_song (db : DB) (sess : Option Nat) (song_id : Nat) : Response :=
  match sess with
  | none => .json 401 "Authentication required"
  | some _ =>
    match get_song db song_id with
    | some (t, a, d, url) => .songData song_id t a d url
    | none => .httpAbort 404

/-- `GET /songs` (`@login_required`): the list of all song rows. -/
def get_all_songs (db : DB) (sess : Option Nat) : Response :=
  match sess with
  | none => .json 401 "Authentication required"
  | some _ => .songList (db_get_all_songs db)

/-- `GET /play/<id>`: no `@login_required` at all; resolves the row and hands
the blob name to `send_from_directory`, whose own not-found behavior covers a
missing blob. -/
def play_song (db : DB) (fs : FS) (song_id : Nat) : Response :=
  match get_song db song_id with
  | some (_, _, _, url) =>
      if url ∈ fs.files then .stream url else .httpAbort 404
  | none => .httpAbort 404

/-- `find?` skips a prefix on which the predicate is everywhere false. -/
theorem find?_append_of_prefix_false {α : Type} (l1 l2 : List α) (p : α → Bool)
    (h : ∀ a ∈ l1, p a = false) : (l1 ++ l2).find? p = l2.find? p := by
  induction l1 with
  | nil => rfl
  | cons x xs ih =>
      have hx : p x = false := h x (by simp)
      rw [List.cons_append, List.find?_cons_of_neg _ (by simp [hx])]
      exact ih (fun a ha => h a (by simp [ha]))

/-- The modelled password hash is injective, reflecting that werkzeug's check
succeeds only for the original password. -/
theorem generate_password_hash_inj {p q : String}
    (h : generate_password_hash p = generate_password_hash q) : p = q := by
  unfold generate_password_hash at h
  have hd := congrArg String.data h
  rw [String.data_append, String.data_append] at hd
  exact String.ext (List.append_cancel_left hd)

/-- Checking a password against its own hash succeeds. -/
theorem check_hash_self (p : String) :
    check_password_hash (generate_password_hash p) p = true := by
  simp [check_password_hash]

/-- Checking any other password against the hash fails. -/
theorem check_hash_ne {p q : String} (h : q ≠ p) :
    check_password_hash (generate_password_hash p) q = false := by
  simp only [check_password_hash, beq_eq_false_iff_ne, ne_eq]
  intro hc
  exact h (generate_password_hash_inj hc).symm

/-- C2: after a successful `register(username, password)`, `verify(username,
password)` returns the user id that `register` created (the id the store
assigned, `db.nextUserId`), and `verify(username, q)` for any other password
`q` returns `InvalidCredentials` (the Python `None`). -/
theorem register_then_verify (db : DB) (u p q : String)
    (hfresh : ∀ r ∈ db.users, r.username ≠ u) (hq : q ≠ p) :
    (register_user db u p).1 = true ∧
    verify_user (register_user db u p).2 (some u) (some p) =
      .ok (some db.nextUserId) ∧
    verify_user (register_user db u p).2 (some u) (some q) = .ok none := by
  have hany : db.users.any (fun r => r.username = u) = false :=
    List.any_eq_false.mpr (fun r hr => by simpa using hfresh r hr)
  have hstep : register_user db u p =
      (true,
        { db with
          users := db.users ++ [⟨db.nextUserId, u, generate_password_hash p⟩],
          nextUserId := db.nextUserId + 1 }) := by
    unfold register_user
    simp [hany]
  have hnone : db.users.find? (fun r => r.username = u) = none :=
    List.find?_eq_none.mpr (fun r hr => by simpa using hfresh r hr)
  refine ⟨by rw [hstep], ?_, ?_⟩
  · rw [hstep]
    unfold verify_user
    simp [hnone, check_hash_self]
  · rw [hstep]
    unfold verify_user
    simp [hnone, check_hash_ne hq]

/-- C2 witness: a concrete register/verify round trip on the empty database. -/
theorem register_then_verify_witness :
    (register_user DB.empty "alice" "pw1").1 = true ∧
    verify_user (register_user DB.empty "alice" "pw1").2 (some "alice")
      (some "pw1") = .ok (some 1) ∧
    verify_user (register_user DB.empty "alice" "pw1").2 (some "alice")
      (some "pw2") = .ok none :=
  register_then_verify DB.empty "alice" "pw1" "pw2" (by simp [DB.empty])
    (by decide)

/-- C4: `add(title, author, duration, ref)` returns the id the store assigns,
and `get` of that id returns exactly the record just inserted (the database is
well-formed: every existing row id is below the AUTOINCREMENT counter). -/
theorem add_song_get_song_roundtrip (db : DB) (t a : String) (d : Nat)
    (url : String) (hwf : ∀ s ∈ db.songs, s.id < db.nextSongId) :
    ∃ db', add_song db (some t) (some a) d url = .ok (db.nextSongId, db') ∧
      get_song db' db.nextSongId = some (t, a, d, url) := by
  refine ⟨_, rfl, ?_⟩
  unfold get_song
  rw [find?_append_of_prefix_false _ _ _
    (fun s hs => by simpa using Nat.ne_of_lt (hwf s hs))]
  simp

/-- C4 witness: a concrete add/get round trip on the empty database. -/
theorem add_song_get_song_roundtrip_witness :
    ∃ db', add_song DB.empty (some "T") (some "A") 180 "song.mp3" =
      .ok (1, db') ∧ get_song db' 1 = some ("T", "A", 180, "song.mp3") :=
  add_song_get_song_roundtrip DB.empty "T" "A" 180 "song.mp3"
    (by simp [DB.empty])

/-- C5: registering a fresh username twice: the first `/register` call
succeeds with 201, the second fails with 409 Conflict and leaves the database
unchanged, so the stored credentials are still the first call's hash. -/
theorem register_twice_conflict (db : DB) (u p1 p2 : String)
    (hu : u ≠ "") (hp1 : p1 ≠ "") (hp2 : p2 ≠ "")
    (hfresh : ∀ r ∈ db.users, r.username ≠ u) :
    ∃ db1,
      register db (some u) (some p1) =
        (.json 201 "User registered successfully", db1) ∧
      register db1 (some u) (some p2) =
        (.json 409 "Username already exists", db1) ∧
      db1.users.find? (fun r => r.username = u) =
        some ⟨db.nextUserId, u, generate_password_hash p1⟩ := by
  have hany : db.users.any (fun r => r.username = u) = false :=
    List.any_eq_false.mpr (fun r hr => by simpa using hfresh r hr)
  have hnone : db.users.find? (fun r => r.username = u) = none :=
    List.find?_eq_none.mpr (fun r hr => by simpa using hfresh r hr)
  refine ⟨{ db with
      users := db.users ++ [⟨db.nextUserId, u, generate_password_hash p1⟩],
      nextUserId := db.nextUserId + 1 }, ?_, ?_, ?_⟩
  · unfold register register_user
    simp [hu, hp1, hany]
  · unfold register register_user
    have hany2 : (db.users ++
        [(⟨db.nextUserId, u, generate_password_hash p1⟩ : UserRow)]).any
        (fun r => r.username = u) = true := by simp
    simp [hu, hp2, hany2]
  · simp [hnone]

/-- C5 witness: a concrete double registration on the empty database. -/
theorem register_twice_conflict_witness :
    ∃ db1,
      register DB.empty (some "bob") (some "pw1") =
        (.json 201 "User registered successfully", db1) ∧
      register db1 (some "bob") (some "pw2") =
        (.json 409 "Username already exists", db1) ∧
      db1.users.find? (fun r => r.username = "bob") =
        some ⟨1, "bob", generate_password_hash "pw1"⟩ :=
  register_twice_conflict DB.empty "bob" "pw1" "pw2" (by decide) (by decide)
    (by decide) (by simp [DB.empty])

/-- C6: `verify` is observationally identical in the "username absent" and the
"username present but the password hash does not verify" cases: both return
the Python `None` (`InvalidCredentials`), so a caller cannot distinguish the
two failure causes. -/
theorem verify_user_indistinguishable (db1 db2 : DB) (u p : String)
    (h1 : db1.users.find? (fun r => r.username = u) = none)
    (h2 : ∀ row, db2.users.find? (fun r => r.username = u) = some row →
        check_password_hash row.password p = false) :
    verify_user db1 (some u) (some p) = .ok none ∧
    verify_user db1 (some u) (some p) = verify_user db2 (some u) (some p) := by
  have e1 : verify_user db1 (some u) (some p) = .ok none := by
    unfold verify_user
    simp [h1]
  refine ⟨e1, ?_⟩
  rw [e1]
  unfold verify_user
  cases hf : db2.users.find? (fun r => r.username = u) with
  | none => simp [hf]
  | some row => simp [hf, h2 row hf]

/-- C6 witness: "alice" absent from one store versus present with a different
password's hash in the other — `verify` returns the same result. -/
theorem verify_user_indistinguishable_witness :
    verify_user DB.empty (some "alice") (some "wrong") = .ok none ∧
    verify_user DB.empty (some "alice") (some "wrong") =
      verify_user ⟨[⟨1, "alice", generate_password_hash "pw"⟩], 2, [], 1⟩
        (some "alice") (some "wrong") :=
  verify_user_indistinguishable DB.empty
    ⟨[⟨1, "alice", generate_password_hash "pw"⟩], 2, [], 1⟩ "alice" "wrong"
    (by simp [DB.empty])
    (by
      intro row hrow
      injection hrow with h
      rw [← h]
      decide)

/-- A string that passes Python's `isdigit` is nonempty. -/
theorem pyIsdigit_ne_empty {d : String} (h : pyIsdigit d = true) : d ≠ "" := by
  intro hd
  rw [hd] at h
  exact absurd h (by decide)

/-- After filtering out every row with the given id, `get_song` finds none. -/
theorem get_song_filter_ne (db : DB) (song_id : Nat) :
    get_song { db with songs := db.songs.filter (fun s => s.id ≠ song_id) }
      song_id = none := by
  unfold get_song
  rw [List.find?_eq_none.mpr]
  · rfl
  · intro x hx
    have hne := (List.mem_filter.mp hx).2
    simp only [decide_eq_true_eq] at hne ⊢
    simpa using hne

/-- C1: the authorization gate. Mutating operations with no session are
rejected 401 by `login_required`, and with a non-admin session rejected 403 by
the inline admin check, in both cases without touching the database or the
blob store; the read operations `get` and `list` answer 401 with no session
but with any session answer from the catalog alone (no admin check); and
`play` takes no session at all and always answers from the catalog. -/
theorem authorization_gate (db : DB) (fs : FS) (uid v song_id : Nat)
    (req : UploadRequest) :
    upload_song db fs none req =
      (.json 401 "Authentication required", db, fs) ∧
    delete_song db fs none song_id =
      (.json 401 "Authentication required", db, fs) ∧
    (get_username_by_id db uid ≠ some "admin" →
      upload_song db fs (some uid) req =
        (.json 403 "You do not have permission to upload songs", db, fs) ∧
      delete_song db fs (some uid) song_id =
        (.json 403 "You do not have permission to delete songs", db, fs)) ∧
    serve_song db none song_id = .json 401 "Authentication required" ∧
    get_all_songs db none = .json 401 "Authentication required" ∧
    (serve_song db (some v) song_id = .httpAbort 404 ∨
      ∃ t a d url, serve_song db (some v) song_id = .songData song_id t a d url) ∧
    get_all_songs db (some v) = .songList (db_get_all_songs db) ∧
    (play_song db fs song_id = .httpAbort 404 ∨
      ∃ url, play_song db fs song_id = .stream url) := by
  refine ⟨rfl, rfl, ?_, rfl, rfl, ?_, rfl, ?_⟩
  · intro h
    constructor
    · simp only [upload_song]
      rw [if_pos h]
    · simp only [delete_song]
      rw [if_pos h]
  · unfold serve_song
    cases hg : get_song db song_id with
    | none => exact Or.inl rfl
    | some val =>
        obtain ⟨t, a, d, url⟩ := val
        exact Or.inr ⟨t, a, d, url, rfl⟩
  · unfold play_song
    cases hg : get_song db song_id with
    | none => exact Or.inl rfl
    | some val =>
        obtain ⟨t, a, d, url⟩ := val
        by_cases hm : url ∈ fs.files
        · exact Or.inr ⟨url, by simp [hm]⟩
        · exact Or.inl (by simp [hm])

/-- C1 witness: user 2 ("bob") is authenticated but not the administrator, so
both mutating operations answer 403 and leave all state unchanged. -/
theorem authorization_gate_witness :
    upload_song
        ⟨[⟨1, "admin", generate_password_hash "a"⟩,
          ⟨2, "bob", generate_password_hash "b"⟩], 3, [], 1⟩
        ⟨[], []⟩ (some 2) ⟨some "song.mp3", some "T", some "A", some "180"⟩ =
      (.json 403 "You do not have permission to upload songs",
        ⟨[⟨1, "admin", generate_password_hash "a"⟩,
          ⟨2, "bob", generate_password_hash "b"⟩], 3, [], 1⟩, ⟨[], []⟩) ∧
    delete_song
        ⟨[⟨1, "admin", generate_password_hash "a"⟩,
          ⟨2, "bob", generate_password_hash "b"⟩], 3, [], 1⟩
        ⟨[], []⟩ (some 2) 1 =
      (.json 403 "You do not have permission to delete songs",
        ⟨[⟨1, "admin", generate_password_hash "a"⟩,
          ⟨2, "bob", generate_password_hash "b"⟩], 3, [], 1⟩, ⟨[], []⟩) :=
  (authorization_gate
      ⟨[⟨1, "admin", generate_password_hash "a"⟩,
        ⟨2, "bob", generate_password_hash "b"⟩], 3, [], 1⟩
      ⟨[], []⟩ 2 1 1 ⟨some "song.mp3", some "T", some "A", some "180"⟩).2.2.1
    (by decide)

/-- C3 counterexample: an admin upload with duration "²" (SUPERSCRIPT TWO)
and a valid `.mp3` file. The superscript satisfies Python's `str.isdigit()`
but is not a decimal digit, so `int("²")` raises `ValueError`: the check
(b) "parse as a non-negative integer, else InvalidDuration" is violated —
the handler ends in an unhandled fault, not in the `InvalidDuration`
response (no row or blob is written, the fault precedes `file.save`). -/
theorem upload_superscript_duration_fault :
    upload_song ⟨[⟨1, "admin", generate_password_hash "a"⟩], 2, [], 1⟩
        ⟨[], []⟩ (some 1) ⟨some "song.mp3", some "T", some "A", some "²"⟩ =
      (.fault, ⟨[⟨1, "admin", generate_password_hash "a"⟩], 2, [], 1⟩,
        ⟨[], []⟩) ∧
    pyIsdigit "²" = true ∧ pyInt? "²" = none ∧
    Response.fault ≠ .json 400 "Invalid duration provided" := by
  decide

/-- C3 (amended): for an admin-authorized upload the checks run in source
order — (a) missing file part first (`MissingFile`); (b) then a duration that
is absent or fails Python's Unicode `str.isdigit()` (`InvalidDuration`,
regardless of the extension), but a duration passing `isdigit` with a
non-decimal digit character makes `int()` raise an unhandled `ValueError`
instead of `InvalidDuration`; (c) then, with a parsed duration, an extension
outside the allow-list (`UnsupportedFormat`). Every failing check — the
`int()` fault included — leaves the database and blob store untouched. -/
theorem upload_validation_order (db : DB) (fs : FS) (uid : Nat)
    (req : UploadRequest)
    (hadmin : get_username_by_id db uid = some "admin") :
    (req.file? = none →
      upload_song db fs (some uid) req = (.json 400 "No file part", db, fs)) ∧
    (∀ fname, req.file? = some fname → req.duration = none →
      upload_song db fs (some uid) req =
        (.json 400 "Invalid duration provided", db, fs)) ∧
    (∀ fname d, req.file? = some fname → req.duration = some d →
      pyIsdigit d = false →
      upload_song db fs (some uid) req =
        (.json 400 "Invalid duration provided", db, fs)) ∧
    (∀ fname d, req.file? = some fname → req.duration = some d →
      pyIsdigit d = true → pyInt? d = none →
      upload_song db fs (some uid) req = (.fault, db, fs)) ∧
    (∀ fname d dur, req.file? = some fname → req.duration = some d →
      pyIsdigit d = true → pyInt? d = some dur → allowed_file fname = false →
      upload_song db fs (some uid) req =
        (.json 400 "Invalid file format", db, fs)) := by
  have hnotne : ¬ get_username_by_id db uid ≠ some "admin" := by simp [hadmin]
  refine ⟨?_, ?_, ?_, ?_, ?_⟩
  · intro hf
    simp only [upload_song]
    rw [if_neg hnotne, hf]
  · intro fname hf hd
    simp only [upload_song]
    rw [if_neg hnotne, hf, hd]
  · intro fname d hf hd hdig
    simp only [upload_song]
    rw [if_neg hnotne, hf, hd]
    simp [hdig]
  · intro fname d hf hd hdig hparse
    simp only [upload_song]
    rw [if_neg hnotne, hf, hd]
    simp [hdig, pyIsdigit_ne_empty hdig, hparse]
  · intro fname d dur hf hd hdig hparse hext
    simp only [upload_song]
    rw [if_neg hnotne, hf, hd]
    simp [hdig, pyIsdigit_ne_empty hdig, hparse, hext]

/-- C3 witness: the spec's own scenario — an admin upload with
`duration="abc"` is rejected as `InvalidDuration` with no store or blob
mutation; likewise a missing file part, a `.txt` extension, and the
Arabic-Indic digit duration "٣" that `isdigit` accepts yet `int` parses. -/
theorem upload_validation_order_witness :
    upload_song ⟨[⟨1, "admin", generate_password_hash "a"⟩], 2, [], 1⟩
        ⟨[], []⟩ (some 1) ⟨some "song.mp3", some "T", some "A", some "abc"⟩ =
      (.json 400 "Invalid duration provided",
        ⟨[⟨1, "admin", generate_password_hash "a"⟩], 2, [], 1⟩, ⟨[], []⟩) ∧
    upload_song ⟨[⟨1, "admin", generate_password_hash "a"⟩], 2, [], 1⟩
        ⟨[], []⟩ (some 1) ⟨none, some "T", some "A", some "180"⟩ =
      (.json 400 "No file part",
        ⟨[⟨1, "admin", generate_password_hash "a"⟩], 2, [], 1⟩, ⟨[], []⟩) ∧
    upload_song ⟨[⟨1, "admin", generate_password_hash "a"⟩], 2, [], 1⟩
        ⟨[], []⟩ (some 1) ⟨some "notes.txt", some "T", some "A", some "٣"⟩ =
      (.json 400 "Invalid file format",
        ⟨[⟨1, "admin", generate_password_hash "a"⟩], 2, [], 1⟩, ⟨[], []⟩) :=
  ⟨(upload_validation_order ⟨[⟨1, "admin", generate_password_hash "a"⟩], 2, [], 1⟩
      ⟨[], []⟩ 1 ⟨some "song.mp3", some "T", some "A", some "abc"⟩
      (by decide)).2.2.1 "song.mp3" "abc" rfl rfl (by decide),
   (upload_validation_order ⟨[⟨1, "admin", generate_password_hash "a"⟩], 2, [], 1⟩
      ⟨[], []⟩ 1 ⟨none, some "T", some "A", some "180"⟩
      (by decide)).1 rfl,
   (upload_validation_order ⟨[⟨1, "admin", generate_password_hash "a"⟩], 2, [], 1⟩
      ⟨[], []⟩ 1 ⟨some "notes.txt", some "T", some "A", some "٣"⟩
      (by decide)).2.2.2.2 "notes.txt" "٣" 3 rfl rfl (by decide) (by decide)
      (by decide)⟩

/-- C8: whenever `delete_song` reports success, `get_song` of that id on the
resulting database returns the Python `None` (`NotFound`); and an
admin-authorized delete of an id with no catalog row answers 404 and leaves
the database and the blob store exactly as they were. -/
theorem delete_then_get_notfound (db : DB) (fs : FS) (sess : Option Nat)
    (song_id : Nat) :
    ((delete_song db fs sess song_id).1 =
        .json 200 "Song deleted successfully" →
      get_song (delete_song db fs sess song_id).2.1 song_id = none) ∧
    (∀ uid, get_username_by_id db uid = some "admin" →
      db.songs.find? (fun s => s.id = song_id) = none →
      delete_song db fs (some uid) song_id =
        (.json 404 "Song not found", db, fs)) := by
  constructor
  · simp only [delete_song]
    split
    · intro h
      simp at h
    · split
      · intro h
        simp at h
      · split
        · split
          · split
            · intro h
              simp at h
            · intro _
              exact get_song_filter_ne db song_id
          · intro _
            exact get_song_filter_ne db song_id
        · intro h
          simp at h
  · intro uid hadmin hf
    simp only [delete_song]
    rw [if_neg (by simp [hadmin]), hf]

/-- C8 witness: deleting song 1 as the administrator then reading it back
finds nothing, and deleting the absent id 5 answers 404 with no side effects. -/
theorem delete_then_get_notfound_witness :
    get_song
      (delete_song ⟨[⟨1, "admin", generate_password_hash "a"⟩], 2,
          [⟨1, "T", "A", 180, "a.mp3"⟩], 2⟩ ⟨["a.mp3"], []⟩ (some 1) 1).2.1
      1 = none ∧
    delete_song ⟨[⟨1, "admin", generate_password_hash "a"⟩], 2,
        [⟨1, "T", "A", 180, "a.mp3"⟩], 2⟩ ⟨["a.mp3"], []⟩ (some 1) 5 =
      (.json 404 "Song not found",
        ⟨[⟨1, "admin", generate_password_hash "a"⟩], 2,
          [⟨1, "T", "A", 180, "a.mp3"⟩], 2⟩, ⟨["a.mp3"], []⟩) :=
  ⟨(delete_then_get_notfound ⟨[⟨1, "admin", generate_password_hash "a"⟩], 2,
        [⟨1, "T", "A", 180, "a.mp3"⟩], 2⟩ ⟨["a.mp3"], []⟩ (some 1) 1).1
      (by decide),
   (delete_then_get_notfound ⟨[⟨1, "admin", generate_password_hash "a"⟩], 2,
        [⟨1, "T", "A", 180, "a.mp3"⟩], 2⟩ ⟨["a.mp3"], []⟩ (some 1) 5).2 1
      (by decide) (by decide)⟩

/-- C7, evaluated at the failing input: an admin-authorized delete of the
existing song 1 whose blob `a.mp3` is present but whose removal raises a true
I/O error. The `OSError` escapes the handler (`fault`) and the catalog row is
NOT deleted — `get_song` still returns it — contradicting the claim that row
deletion still proceeds with a warning-level outcome. -/
theorem delete_song_io_failure_aborts :
    delete_song ⟨[⟨1, "admin", generate_password_hash "a"⟩], 2,
        [⟨1, "T", "A", 180, "a.mp3"⟩], 2⟩ ⟨["a.mp3"], ["a.mp3"]⟩ (some 1) 1 =
      (.fault,
        ⟨[⟨1, "admin", generate_password_hash "a"⟩], 2,
          [⟨1, "T", "A", 180, "a.mp3"⟩], 2⟩, ⟨["a.mp3"], ["a.mp3"]⟩) ∧
    get_song ⟨[⟨1, "admin", generate_password_hash "a"⟩], 2,
        [⟨1, "T", "A", 180, "a.mp3"⟩], 2⟩ 1 = some ("T", "A", 180, "a.mp3") := by
  decide

/-- C9, evaluated at the failing input: an admin upload with a valid file
part `a.mp3` and duration `"180"` but no `title` form field. The blob is
saved, then `add_song` binds the Python `None` into the `NOT NULL` `title`
column and the resulting `sqlite3.IntegrityError` escapes the handler
unhandled (`fault`, with the blob already written and no row inserted) —
contradicting the claim that every business error becomes a structured
response. -/
theorem upload_missing_title_fault :
    upload_song ⟨[⟨1, "admin", generate_password_hash "a"⟩], 2, [], 1⟩
        ⟨[], []⟩ (some 1) ⟨some "a.mp3", none, some "A", some "180"⟩ =
      (.fault, ⟨[⟨1, "admin", generate_password_hash "a"⟩], 2, [], 1⟩,
        ⟨["a.mp3"], []⟩) := by
  decide

/-- C10 counterexample: a login request whose body names the registered user
"alice" but lacks the password field does NOT produce the 401
`InvalidCredentials` outcome — `check_password_hash` receives the Python
`None` and raises, so the handler ends in an unhandled fault. -/
theorem login_missing_password_fault :
    login ⟨[⟨1, "alice", generate_password_hash "pw"⟩], 2, [], 1⟩ none
        (some "alice") none = (.fault, none) ∧
    Response.fault ≠ .json 401 "Invalid username or password" := by
  decide

/-- C10 (amended): a login whose body lacks the username, or whose username
matches no registered user, answers the same 401 `InvalidCredentials` as a
wrong-password attempt, as does a present-but-wrong password (the empty
string included); only when the username matches a registered user and the
password field is absent does the hash check raise an unhandled fault. In
every case the session is left untouched — no identity is established. -/
theorem login_missing_fields (db : DB) (sess : Option Nat) (p? : Option String)
    (u q : String) :
    login db sess none p? = (.json 401 "Invalid username or password", sess) ∧
    (db.users.find? (fun r => r.username = u) = none →
      login db sess (some u) p? =
        (.json 401 "Invalid username or password", sess)) ∧
    (∀ row, db.users.find? (fun r => r.username = u) = some row →
      (check_password_hash row.password q = false →
        login db sess (some u) (some q) =
          (.json 401 "Invalid username or password", sess)) ∧
      login db sess (some u) none = (.fault, sess)) := by
  refine ⟨?_, ?_, ?_⟩
  · unfold login verify_user
    simp
  · intro h
    unfold login verify_user
    simp [h]
  · intro row hrow
    constructor
    · intro hc
      unfold login verify_user
      simp [hrow, hc]
    · unfold login verify_user
      simp [hrow]

/-- C10 witness: registered "alice" with an empty-string password is refused
with the same 401 as any wrong password, establishing no session. -/
theorem login_missing_fields_witness :
    login ⟨[⟨1, "alice", generate_password_hash "pw"⟩], 2, [], 1⟩ none
        (some "alice") (some "") =
      (.json 401 "Invalid username or password", none) :=
  ((login_missing_fields ⟨[⟨1, "alice", generate_password_hash "pw"⟩], 2, [], 1⟩
      none (some "") "alice" "").2.2 ⟨1, "alice", generate_password_hash "pw"⟩
      (by decide)).1 (by decide)
